import Mathlib

/-!
Verification of the policymaker repository: a shallow embedding of the
row-to-policy-document mapping logic of `policymaker.py` (single-policy
variant), `optum_policy_maker.py` (multi-policy batch variant) and
`ipset_maker.py` (HCL IP-set emitter), together with theorems settling
the specification claims about them.

Spreadsheet cell values are modelled by `PyVal`; a row is an association
list from column name to value.  Python string builtins (`split`,
`strip`, `upper`, `lower`, `startswith`, `endswith`, `str.join`) are
modelled by executable character-list functions so that every
definition evaluates inside the kernel.
-/

/-- A scalar cell value as the Python code sees it: a native bool, a
string, a finite number (`int` or `float`, modelled by `Rat`), the
float `NaN` (what pandas stores in an empty cell of a numeric column),
or `None` (what `Series.get` returns for a missing key when no default
is given).  `pd.isna` is true exactly on the last two. -/
inductive PyVal where
  | pbool (b : Bool)
  | pstr (s : String)
  | pnum (q : Rat)
  | pnan
  | pnone
deriving DecidableEq

/-- Error kinds raised by the modelled code: `validationError` for the
category check in `validate_category` (a Python `ValueError` from
validation), `convError` for a failing `int(...)` conversion (also a
Python `ValueError`), `attributeError` for calling a string method on a
non-string (Python `AttributeError`). -/
inductive PyErr where
  | validationError (msg : String)
  | convError (msg : String)
  | attributeError (msg : String)
deriving DecidableEq

/-- A spreadsheet row: ordered association list from column name to value. -/
abbrev Row := List (String × PyVal)

/-- Models `row.get(key, default)` on a pandas Series: the stored value if
the column is present (even if it is NaN), otherwise the default. -/
def rowGet (row : Row) (key : String) (dflt : PyVal) : PyVal :=
  match row.find? (fun kv => kv.1 = key) with
  | some kv => kv.2
  | none => dflt

/-- Models `pd.isna`: true exactly on NaN and None. -/
def pdIsna : PyVal → Bool
  | .pnan => true
  | .pnone => true
  | _ => false

/-- Whitespace characters stripped by Python `str.strip()`. -/
def isPySpace (c : Char) : Bool :=
  c = ' ' ∨ c = '\t' ∨ c = '\n' ∨ c = '\r' ∨ c = '\x0b' ∨ c = '\x0c'

/-- Models Python `str.strip()`. -/
def pyStrip (s : String) : String :=
  ⟨((s.data.dropWhile isPySpace).reverse.dropWhile isPySpace).reverse⟩

/-- Models Python `str.upper()` (the code only compares ASCII text). -/
def pyUpper (s : String) : String := ⟨s.data.map Char.toUpper⟩

/-- Models Python `str.lower()` (the code only compares ASCII text). -/
def pyLower (s : String) : String := ⟨s.data.map Char.toLower⟩

/-- Character-level worker for `str.split(',')`:
`"".split(',') == ['']` and a trailing comma yields a trailing empty
element, exactly as in Python. -/
def splitCommaChars : List Char → List (List Char)
  | [] => [[]]
  | c :: rest =>
    let r := splitCommaChars rest
    if c = ',' then [] :: r
    else
      match r with
      | [] => [[c]]
      | h :: t => (c :: h) :: t

/-- Models Python `s.split(',')`. -/
def pySplitComma (s : String) : List String :=
  (splitCommaChars s.data).map (fun l => ⟨l⟩)

/-- Models Python `s.startswith(p)`. -/
def pyStartsWith (s p : String) : Bool := p.data.isPrefixOf s.data

/-- Models Python `s.endswith(p)`. -/
def pyEndsWith (s p : String) : Bool := p.data.isSuffixOf s.data

/-- Models Python `sep.join(lines)`. -/
def joinWith (sep : String) : List String → String
  | [] => ""
  | [s] => s
  | s :: rest => s ++ sep ++ joinWith sep rest

/-- Models Python `str(value)`.  Numeric formatting is approximated
(the claims never depend on the text of a stringified number). -/
def pyStr : PyVal → String
  | .pbool b => if b then "True" else "False"
  | .pstr s => s
  | .pnum q => if q.den = 1 then toString q.num else toString q
  | .pnan => "nan"
  | .pnone => "None"

/-- `convert_to_bool` from `policymaker.py` lines 61-71 and
`optum_policy_maker.py` lines 90-100 (the two copies are identical):
a bool is returned unchanged; a string is true iff it upper-cases to
`TRUE`; a number is true iff it equals 1 (`NaN == 1` is false); every
other value is false. -/
def convert_to_bool : PyVal → Bool
  | .pbool b => b
  | .pstr s => pyUpper s = "TRUE"
  | .pnum q => q = 1
  | .pnan => false
  | .pnone => false

/-- Models Python `value == 0` for the values a header cell can hold
(`False == 0` and `0.0 == 0` are true in Python; a string or NaN or
None never equals 0). -/
def pyEqZero : PyVal → Bool
  | .pnum q => q = 0
  | .pbool b => !b
  | _ => false

/-- Decimal value of a digit string, most significant first
(used both to model `int(str)` and to verify `Nat.repr`). -/
def digitsVal (acc : Nat) : List Char → Nat
  | [] => acc
  | c :: cs => digitsVal (10 * acc + (c.toNat - 48)) cs

/-- Truncation of a rational toward zero: Python `int(float)`. -/
def ratTrunc (q : Rat) : Int := Int.tdiv q.num q.den

/-- Models Python `int(s)` on a string: strip whitespace, optional
sign, then a nonempty run of decimal digits; anything else raises
`ValueError`.  (Digit-group underscores accepted by Python are not
modelled; the code under verification never relies on them.) -/
def pyIntOfString (s : String) : Except PyErr Int :=
  match (pyStrip s).data with
  | '-' :: rest =>
    if rest ≠ [] ∧ rest.all Char.isDigit then .ok (-(digitsVal 0 rest : Int))
    else .error (.convError ("invalid literal for int(): " ++ s))
  | '+' :: rest =>
    if rest ≠ [] ∧ rest.all Char.isDigit then .ok ((digitsVal 0 rest : Int))
    else .error (.convError ("invalid literal for int(): " ++ s))
  | l =>
    if l ≠ [] ∧ l.all Char.isDigit then .ok ((digitsVal 0 l : Int))
    else .error (.convError ("invalid literal for int(): " ++ s))

/-- Models Python `int(value)` on a cell value: bools are ints in
Python; a finite float truncates toward zero; `int(NaN)` and
`int(None)` raise. -/
def pyInt : PyVal → Except PyErr Int
  | .pbool b => .ok (if b then 1 else 0)
  | .pnum q => .ok (ratTrunc q)
  | .pstr s => pyIntOfString s
  | .pnan => .error (.convError "cannot convert float NaN to integer")
  | .pnone => .error (.convError "int() argument is None")

/-- `validate_category` from `policymaker.py` lines 73-88 and
`optum_policy_maker.py` lines 102-117 (identical): lower-case the
input and look it up in the fixed three-entry mapping, raising a
validation error otherwise. -/
def validate_category (category : String) : Except PyErr String :=
  let category_lower := pyLower category
  if category_lower = "application" then .ok "Application"
  else if category_lower = "infrastructure" then .ok "Infrastructure"
  else if category_lower = "environment" then .ok "Environment"
  else .error (.validationError
    ("Category must be one of: Application, Infrastructure, Environment. Got: " ++ category))

/-- `validate_category` applied to a raw cell value: Python calls
`.lower()` on it, so a non-string raises `AttributeError`. -/
def pyValidateCategory : PyVal → Except PyErr String
  | .pstr s => validate_category s
  | _ => .error (.attributeError "value has no attribute lower")

/-- Left-to-right fail-fast map, the effect of a Python list
comprehension whose body can raise. -/
def mapExcept (f : α → Except PyErr β) : List α → Except PyErr (List β)
  | [] => .ok []
  | a :: as =>
    match f a with
    | .error e => .error e
    | .ok b =>
      match mapExcept f as with
      | .error e => .error e
      | .ok bs => .ok (b :: bs)

/-- One normalized firewall rule, the dictionary built by `create_rule`
in either variant (both build the same fields; only the insertion
order of the dict differs, which only affects serialization order). -/
structure Rule where
  action : PyVal
  description : String
  destination_groups : List String
  destinations_excluded : Bool
  direction : PyVal
  disabled : Bool
  display_name : String
  ip_version : PyVal
  log_label : String
  logged : Bool
  notes : String
  sequence_number : Int
  services : List String
  source_groups : List String
  sources_excluded : Bool
  scope : List String
deriving DecidableEq

namespace Policymaker

/-- `construct_variable_reference` from `policymaker.py` lines 8-31.
For services: `SVCG_` prefix selects the custom namespace, `_path`
suffix the default-services namespace, and otherwise the bare name is
returned unresolved.  For groups each recognized category selects its
namespace, always keying it with `name + "_path"`; an unrecognized or
absent category falls through to the bare name. -/
def construct_variable_reference (type_str name : String) (category : Option String) : String :=
  if type_str = "service" then
    if pyStartsWith name "SVCG_" then "$\x7bvar.services_path." ++ name ++ "\x7d"
    else if pyEndsWith name "_path" then "$\x7bvar.default_services_path." ++ name ++ "\x7d"
    else name
  else
    match category with
    | some c =>
      if c = "Infrastructure" then "$\x7bvar.infra_groups_path." ++ name ++ "_path\x7d"
      else if c = "Environment" then "$\x7bvar.env_groups_path." ++ name ++ "_path\x7d"
      else if c = "Application" then "$\x7bvar.app_groups_path." ++ name ++ "_path\x7d"
      else name
    | none => name

/-- `process_groups` from `create_rule`, `policymaker.py` lines 160-165:
NaN/None, the empty string, the literal `any`, and any non-string give
`[]`; otherwise split on comma, strip each element, and resolve each
element (empty elements included) as a group reference. -/
def process_groups (value : PyVal) (category : String) : List String :=
  match value with
  | .pstr s =>
    if s = "" then []
    else if s = "any" then []
    else (pySplitComma s).map
      (fun group => construct_variable_reference "group" (pyStrip group) (some category))
  | _ => []

/-- The services branch of `create_rule`, `policymaker.py` lines 170-177:
same guard and split/strip as `process_groups` but resolved with
`kind = service` and no category. -/
def process_services (value : PyVal) : List String :=
  match value with
  | .pstr s =>
    if s = "" then []
    else if s = "any" then []
    else (pySplitComma s).map
      (fun service => construct_variable_reference "service" (pyStrip service) none)
  | _ => []

/-- `create_rule` from `policymaker.py` lines 129-191 (the debug-log
file writing is external I/O and not part of the data contract).  The
only fallible step is `int(rule_row.get("sequence_number", 0))`. -/
def create_rule (rule_row : Row) (category : String) : Except PyErr Rule :=
  match pyInt (rowGet rule_row "sequence_number" (.pnum 0)) with
  | .error e => .error e
  | .ok seq =>
    .ok {
      action := rowGet rule_row "action" (.pstr "ALLOW"),
      description := "",
      destination_groups := process_groups (rowGet rule_row "destination_groups" .pnone) category,
      destinations_excluded :=
        convert_to_bool (rowGet rule_row "destinations_excluded (Negate)" (.pbool false)),
      direction := rowGet rule_row "direction" (.pstr "IN_OUT"),
      disabled := convert_to_bool (rowGet rule_row "Rule Disabled" (.pbool false)),
      display_name := pyStr (rowGet rule_row "display_name" (.pstr "")),
      ip_version := rowGet rule_row "ip_version" (.pstr "IPV4_IPV6"),
      log_label := "",
      logged := convert_to_bool (rowGet rule_row "logged" (.pbool false)),
      notes := "",
      sequence_number := seq,
      services := process_services (rowGet rule_row "services" .pnone),
      source_groups := process_groups (rowGet rule_row "source_groups" .pnone) category,
      sources_excluded :=
        convert_to_bool (rowGet rule_row "sources_excluded (Negate)" (.pbool false)),
      scope := process_groups (rowGet rule_row "scope (Applied To)" .pnone) category }

/-- The policy dictionary built by `create_policy` in `policymaker.py`
lines 90-127 (the inner `nsxt_policy_security_policy` object; the
envelope only wraps it). -/
structure Policy where
  nsx_id : String
  display_name : PyVal
  category : String
  comments : PyVal
  description : PyVal
  domain : PyVal
  locked : Bool
  sequence_number : PyVal
  rule : List Rule
deriving DecidableEq

/-- `create_policy` from `policymaker.py` lines 90-127: validate the
category first (so an invalid category fails before any rule row is
processed), then normalize every rule row, then build the policy
record; a sequence number equal to 0 (Python `== 0`) is replaced by
the empty string. -/
def create_policy (policy_row : Row) (rules : List Row) : Except PyErr Policy :=
  match pyValidateCategory (rowGet policy_row "category" (.pstr "Infrastructure")) with
  | .error e => .error e
  | .ok validated_category =>
    match mapExcept (fun rule_row => create_rule rule_row validated_category) rules with
    | .error e => .error e
    | .ok rules_with_category =>
      .ok {
        nsx_id := "",
        display_name :=
          rowGet policy_row "Terraform Policy File"
            (rowGet policy_row "Application" (.pstr "default-policy")),
        category := validated_category,
        comments :=
          if pdIsna (rowGet policy_row "comments" .pnone) then .pstr ""
          else rowGet policy_row "comments" .pnone,
        description :=
          if pdIsna (rowGet policy_row "description" .pnone) then .pstr ""
          else rowGet policy_row "description" .pnone,
        domain := rowGet policy_row "domain" (.pstr "default"),
        locked := convert_to_bool (rowGet policy_row "locked" (.pbool false)),
        sequence_number :=
          if pyEqZero (rowGet policy_row "sequence_number" (.pnum 0)) then .pstr ""
          else rowGet policy_row "sequence_number" (.pnum 0),
        rule := rules_with_category }

end Policymaker

namespace Optum

/-- `construct_variable_reference` from `optum_policy_maker.py` lines
8-31.  Unlike the `policymaker.py` copy, every unrecognized service or
group name resolves into a base-path form (`services_base_path` /
`groups_base_path`) instead of falling through to the bare name, and
the Application category uses `groups_base_path` with the bare name
rather than an `app_groups_path` key. -/
def construct_variable_reference (type_str name : String) (category : Option String) : String :=
  if type_str = "service" then
    if pyStartsWith name "SVCG_" then "$\x7bvar.services_path." ++ name ++ "\x7d"
    else if pyEndsWith name "_path" then "$\x7bvar.services_base_path\x7d/" ++ name
    else "$\x7bvar.services_base_path\x7d/" ++ name
  else
    match category with
    | some c =>
      if c = "Infrastructure" then "$\x7bvar.infra_groups_path." ++ name ++ "_path\x7d"
      else if c = "Environment" then "$\x7bvar.env_groups_path." ++ name ++ "_path\x7d"
      else if c = "Application" then "$\x7bvar.groups_base_path\x7d/" ++ name
      else "$\x7bvar.groups_base_path\x7d/" ++ name
    | none => "$\x7bvar.groups_base_path\x7d/" ++ name

/-- `process_groups` from `create_rule`, `optum_policy_maker.py` lines
232-237: same guard and split/strip as the `policymaker.py` copy but
resolving through this variant's resolver. -/
def process_groups (value : PyVal) (category : String) : List String :=
  match value with
  | .pstr s =>
    if s = "" then []
    else if s = "any" then []
    else (pySplitComma s).map
      (fun group => construct_variable_reference "group" (pyStrip group) (some category))
  | _ => []

/-- The services branch of `create_rule`, `optum_policy_maker.py`
lines 242-249. -/
def process_services (value : PyVal) : List String :=
  match value with
  | .pstr s =>
    if s = "" then []
    else if s = "any" then []
    else (pySplitComma s).map
      (fun service => construct_variable_reference "service" (pyStrip service) none)
  | _ => []

/-- `create_rule` from `optum_policy_maker.py` lines 201-263: same
shape as the `policymaker.py` copy but the display name comes from the
`rule_display_name` column. -/
def create_rule (rule_row : Row) (category : String) : Except PyErr Rule :=
  match pyInt (rowGet rule_row "sequence_number" (.pnum 0)) with
  | .error e => .error e
  | .ok seq =>
    .ok {
      action := rowGet rule_row "action" (.pstr "ALLOW"),
      description := "",
      destination_groups := process_groups (rowGet rule_row "destination_groups" .pnone) category,
      destinations_excluded :=
        convert_to_bool (rowGet rule_row "destinations_excluded (Negate)" (.pbool false)),
      direction := rowGet rule_row "direction" (.pstr "IN_OUT"),
      disabled := convert_to_bool (rowGet rule_row "Rule Disabled" (.pbool false)),
      display_name := pyStr (rowGet rule_row "rule_display_name" (.pstr "")),
      ip_version := rowGet rule_row "ip_version" (.pstr "IPV4_IPV6"),
      log_label := "",
      logged := convert_to_bool (rowGet rule_row "logged" (.pbool false)),
      notes := "",
      sequence_number := seq,
      services := process_services (rowGet rule_row "services" .pnone),
      source_groups := process_groups (rowGet rule_row "source_groups" .pnone) category,
      sources_excluded :=
        convert_to_bool (rowGet rule_row "sources_excluded (Negate)" (.pbool false)),
      scope := process_groups (rowGet rule_row "scope (Applied To)" .pnone) category }

/-- Is the raw sequence value an `int`/`float` instance in Python?
Bools are ints in Python and NaN is a float, so both take the numeric
branch of `create_policy`'s sequence handling. -/
def seqIsNumeric : PyVal → Bool
  | .pbool _ => true
  | .pnum _ => true
  | .pnan => true
  | _ => false

/-- `int(value)` restricted to the numeric branch: bools become 0/1, a
finite float truncates toward zero, `int(NaN)` raises. -/
def pyIntOfNumeric : PyVal → Except PyErr Int
  | .pbool b => .ok (if b then 1 else 0)
  | .pnum q => .ok (ratTrunc q)
  | _ => .error (.convError "cannot convert float NaN to integer")

/-- The `while str(sequence_number) in existing_sequences:
sequence_number += 1` loop of `optum_policy_maker.py` lines 151-152,
with explicit fuel.  `existing.length` steps of fuel always suffice: a
list of length `L` contains at most `L` distinct strings, so one of
the `L + 1` candidates `n, n+1, …, n+L` is free (proved below). -/
def findFree (existing : List String) : Nat → Int → Int
  | 0, n => n
  | fuel + 1, n =>
    if toString n ∈ existing then findFree existing fuel (n + 1) else n

/-- First candidate at or above `n` whose decimal string is not in
`existing` — the value the `while` loop terminates with. -/
def nextSeq (existing : List String) (n : Int) : Int :=
  findFree existing existing.length n

/-- Sequence-number handling of `create_policy`,
`optum_policy_maker.py` lines 146-153: a numeric candidate is
converted with `int`, incremented past every value already in the
shared set, and the chosen value is recorded in the set; a non-numeric
value skips deduplication and is stringified as-is. -/
def seqAlloc (raw : PyVal) (existing_sequences : List String) :
    Except PyErr (String × List String) :=
  if seqIsNumeric raw then
    match pyIntOfNumeric raw with
    | .error e => .error e
    | .ok n =>
      let m := nextSeq existing_sequences n
      .ok (toString m, existing_sequences ++ [toString m])
  else
    .ok (pyStr raw, existing_sequences)

/-- The policy dictionary built by `create_policy` in
`optum_policy_maker.py` lines 133-175 (this variant stringifies the
comments, description and sequence number). -/
structure Policy where
  nsx_id : String
  display_name : PyVal
  category : String
  comments : String
  description : String
  domain : PyVal
  locked : Bool
  sequence_number : String
  rule : List Rule
deriving DecidableEq

/-- `create_policy` from `optum_policy_maker.py` lines 133-175:
category validation first, then sequence-number handling against the
shared set, then rule normalization.  Returns the policy together with
the updated sequence-number set. -/
def create_policy (policy_row : Row) (rules : List Row) (existing_sequences : List String) :
    Except PyErr (Policy × List String) :=
  match pyValidateCategory (rowGet policy_row "category" (.pstr "Infrastructure")) with
  | .error e => .error e
  | .ok validated_category =>
    match seqAlloc (rowGet policy_row "sequence_number" (.pnum 0)) existing_sequences with
    | .error e => .error e
    | .ok (seq_str, existing2) =>
      match mapExcept (fun rule_row => create_rule rule_row validated_category) rules with
      | .error e => .error e
      | .ok rules_with_category =>
        .ok ({
          nsx_id := "",
          display_name :=
            rowGet policy_row "policy_display_name"
              (rowGet policy_row "Application" (.pstr "default-policy")),
          category := validated_category,
          comments :=
            if pdIsna (rowGet policy_row "comments" .pnone) then ""
            else pyStr (rowGet policy_row "comments" .pnone),
          description :=
            if pdIsna (rowGet policy_row "description" .pnone) then ""
            else pyStr (rowGet policy_row "description" .pnone),
          domain := rowGet policy_row "domain" (.pstr "default"),
          locked := convert_to_bool (rowGet policy_row "locked" (.pbool false)),
          sequence_number := seq_str,
          rule := rules_with_category }, existing2)

/-- The multi-policy batch loop of `main`, `optum_policy_maker.py`
lines 330-342: one shared sequence-number set threaded through
`create_single_policy` for every sheet, collecting the policies in
order. -/
def batchPolicies : List (Row × List Row) → List String →
    Except PyErr (List Policy × List String)
  | [], existing_sequences => .ok ([], existing_sequences)
  | (policy_row, rules) :: rest, existing_sequences =>
    match create_policy policy_row rules existing_sequences with
    | .error e => .error e
    | .ok (p, existing2) =>
      match batchPolicies rest existing2 with
      | .error e => .error e
      | .ok (ps, existing3) => .ok (p :: ps, existing3)

end Optum

namespace Ipset

/-- `clean_ip_addresses` from `ipset_maker.py` lines 20-28: NaN/None
give `[]`; a string is split on comma, each element stripped, and
empty elements dropped; a non-string raises `AttributeError` at
`.split`. -/
def clean_ip_addresses (csv_str : PyVal) : Except PyErr (List String) :=
  match csv_str with
  | .pnan => .ok []
  | .pnone => .ok []
  | .pstr s => .ok (((pySplitComma s).map pyStrip).filter (fun ip => ip ≠ ""))
  | _ => .error (.attributeError "value has no attribute split")

/-- The `re.sub(r'[^a-zA-Z0-9_-]', '_', group_name)` sanitizer of
`generate_hcl_locals`, `ipset_maker.py` line 36: keep ASCII letters,
digits, underscore and hyphen; replace every other character by `_`. -/
def cleanName (group_name : String) : String :=
  ⟨group_name.data.map (fun c =>
    if ('a' ≤ c ∧ c ≤ 'z') ∨ ('A' ≤ c ∧ c ≤ 'Z') ∨ ('0' ≤ c ∧ c ≤ '9') ∨ c = '_' ∨ c = '-'
    then c else '_')⟩

/-- JSON escaping of one character inside a string literal (models
`json.dumps` for the plain ASCII address strings the tool handles;
control-character and non-ASCII `\u` escapes are not modelled). -/
def jsonEscapeChar (c : Char) : List Char :=
  if c = '\\' then ['\\', '\\']
  else if c = '"' then ['\\', '"']
  else [c]

/-- A JSON string literal. -/
def jsonStringLit (s : String) : String :=
  "\"" ++ (⟨s.data.flatMap jsonEscapeChar⟩ : String) ++ "\""

/-- `json.dumps` of a list of strings: a JSON array literal with
`", "` between elements (Python's default separator). -/
def jsonDumpsList (l : List String) : String :=
  "[" ++ joinWith ", " (l.map jsonStringLit) ++ "]"

/-- The four lines appended per group by the loop in
`generate_hcl_locals`, `ipset_maker.py` lines 34-45: the entry key is
the sanitized group name and the addresses value is the `json.dumps`
serialization of the address list. -/
def entryLines (g : String × List String) : List String :=
  ["    " ++ cleanName g.1 ++ " = \x7b",
   "      name = \"" ++ g.1 ++ "\"",
   "      addresses = " ++ jsonDumpsList g.2,
   "    \x7d"]

/-- All lines of the `locals` block, `ipset_maker.py` lines 30-48. -/
def localsLines (groups_data : List (String × List String)) : List String :=
  ["locals \x7b", "  ip_sets = \x7b"]
    ++ groups_data.flatMap entryLines
    ++ ["  \x7d", "\x7d", ""]

/-- `generate_hcl_locals` from `ipset_maker.py` lines 30-48:
`'\n'.join` of the block lines. -/
def generate_hcl_locals (groups_data : List (String × List String)) : String :=
  joinWith "\n" (localsLines groups_data)

/-- One row of the IP-set input sheet: the `group_name` and `csv`
columns read by `convert_xlsx_to_hcl`. -/
structure IpsetRow where
  group_name : PyVal
  csv : PyVal
deriving DecidableEq

/-- Python dict assignment `d[k] = v`: update in place if the key is
present, else append. -/
def dictInsert (d : List (PyVal × List String)) (k : PyVal) (v : List String) :
    List (PyVal × List String) :=
  if d.any (fun kv => kv.1 = k) then
    d.map (fun kv => if kv.1 = k then (k, v) else kv)
  else d ++ [(k, v)]

/-- The body of the row loop in `convert_xlsx_to_hcl`,
`ipset_maker.py` lines 86-94: skip a row whose `group_name` is NA;
clean the `csv` cell; only a nonempty cleaned list contributes an
entry to `groups_data`. -/
def processIpsetRow (groups_data : List (PyVal × List String)) (row : IpsetRow) :
    Except PyErr (List (PyVal × List String)) :=
  if pdIsna row.group_name then .ok groups_data
  else
    match clean_ip_addresses row.csv with
    | .error e => .error e
    | .ok ip_addresses =>
      if ip_addresses = [] then .ok groups_data
      else .ok (dictInsert groups_data row.group_name ip_addresses)

/-- The whole row loop of `convert_xlsx_to_hcl`, starting from an
accumulator (the top-level call starts from the empty dict). -/
def ipsetGroupsData : List IpsetRow → List (PyVal × List String) →
    Except PyErr (List (PyVal × List String))
  | [], groups_data => .ok groups_data
  | row :: rest, groups_data =>
    match processIpsetRow groups_data row with
    | .error e => .error e
    | .ok groups2 => ipsetGroupsData rest groups2

end Ipset

/-!
Auxiliary theorems.  The batch sequence-number deduplication stores
`str(sequence_number)` in a set, so reasoning about it needs that the
decimal string of an integer determines the integer; we verify
`Nat.repr` / `Int.repr` against the digit evaluator `digitsVal`.
-/

theorem digitChar_sub_48 (d : Nat) (h : d < 10) : (Nat.digitChar d).toNat - 48 = d := by
  interval_cases d <;> decide

theorem digitChar_ne_dash (d : Nat) (h : d < 10) : Nat.digitChar d ≠ '-' := by
  interval_cases d <;> decide

theorem toDigitsCore_digitsVal (fuel : Nat) :
    ∀ (n : Nat) (ds : List Char), n < fuel →
      ∃ k, 0 < k ∧ ∀ acc, digitsVal acc (Nat.toDigitsCore 10 fuel n ds)
        = digitsVal (acc * 10 ^ k + n) ds := by
  induction fuel with
  | zero => intro n ds h; omega
  | succ f ih =>
    intro n ds h
    have hunf : Nat.toDigitsCore 10 (f + 1) n ds =
        if n / 10 = 0 then Nat.digitChar (n % 10) :: ds
        else Nat.toDigitsCore 10 f (n / 10) (Nat.digitChar (n % 10) :: ds) := rfl
    by_cases h10 : n / 10 = 0
    · refine ⟨1, one_pos, fun acc => ?_⟩
      rw [hunf, if_pos h10]
      show digitsVal (10 * acc + ((Nat.digitChar (n % 10)).toNat - 48)) ds = _
      rw [digitChar_sub_48 _ (Nat.mod_lt _ (by norm_num))]
      have hmod : n % 10 = n := Nat.mod_eq_of_lt (by omega)
      rw [hmod]
      congr 1
      ring
    · have hlt : n / 10 < f := by omega
      obtain ⟨k, hk, hval⟩ := ih (n / 10) (Nat.digitChar (n % 10) :: ds) hlt
      refine ⟨k + 1, by omega, fun acc => ?_⟩
      rw [hunf, if_neg h10, hval]
      show digitsVal (10 * (acc * 10 ^ k + n / 10) + ((Nat.digitChar (n % 10)).toNat - 48)) ds = _
      rw [digitChar_sub_48 _ (Nat.mod_lt _ (by norm_num))]
      congr 1
      have hdm : 10 * (n / 10) + n % 10 = n := Nat.div_add_mod n 10
      calc 10 * (acc * 10 ^ k + n / 10) + n % 10
          = acc * (10 ^ k * 10) + (10 * (n / 10) + n % 10) := by ring
        _ = acc * 10 ^ (k + 1) + n := by rw [hdm, pow_succ]

theorem natRepr_digitsVal (n : Nat) : digitsVal 0 (Nat.toDigits 10 n) = n := by
  obtain ⟨k, _, hval⟩ := toDigitsCore_digitsVal (n + 1) n [] (Nat.lt_succ_self n)
  have h0 := hval 0
  show digitsVal 0 (Nat.toDigitsCore 10 (n + 1) n []) = n
  rw [h0]
  show 0 * 10 ^ k + n = n
  simp

theorem natRepr_inj (a b : Nat) (h : Nat.repr a = Nat.repr b) : a = b := by
  have hdata := congrArg String.data h
  have hd : Nat.toDigits 10 a = Nat.toDigits 10 b := by
    simpa [Nat.repr, List.asString] using hdata
  have ha := natRepr_digitsVal a
  rw [hd, natRepr_digitsVal b] at ha
  exact ha.symm

theorem toDigitsCore_head (fuel : Nat) :
    ∀ (n : Nat) (ds : List Char), 0 < fuel →
      ∃ d t, d < 10 ∧ Nat.toDigitsCore 10 fuel n ds = Nat.digitChar d :: t := by
  induction fuel with
  | zero => intro n ds h; omega
  | succ f ih =>
    intro n ds _
    have hunf : Nat.toDigitsCore 10 (f + 1) n ds =
        if n / 10 = 0 then Nat.digitChar (n % 10) :: ds
        else Nat.toDigitsCore 10 f (n / 10) (Nat.digitChar (n % 10) :: ds) := rfl
    by_cases h10 : n / 10 = 0
    · exact ⟨n % 10, ds, Nat.mod_lt _ (by norm_num), by rw [hunf, if_pos h10]⟩
    · cases f with
      | zero =>
        refine ⟨n % 10, ds, Nat.mod_lt _ (by norm_num), ?_⟩
        rw [hunf, if_neg h10]
        rfl
      | succ f2 =>
        obtain ⟨d, t, hd, ht⟩ := ih (n / 10) (Nat.digitChar (n % 10) :: ds) (Nat.succ_pos f2)
        exact ⟨d, t, hd, by rw [hunf, if_neg h10, ht]⟩

theorem natRepr_data_head (n : Nat) :
    ∃ d t, d < 10 ∧ (Nat.repr n).data = Nat.digitChar d :: t := by
  obtain ⟨d, t, hd, ht⟩ := toDigitsCore_head (n + 1) n [] (Nat.succ_pos n)
  refine ⟨d, t, hd, ?_⟩
  simpa [Nat.repr, Nat.toDigits, List.asString] using ht

theorem intRepr_inj (a b : Int) (h : Int.repr a = Int.repr b) : a = b := by
  cases a with
  | ofNat m =>
    cases b with
    | ofNat k =>
      have := natRepr_inj m k (by simpa [Int.repr] using h)
      simp [this]
    | negSucc k =>
      exfalso
      have hdata := congrArg String.data h
      rw [show Int.repr (Int.ofNat m) = Nat.repr m from rfl,
        show Int.repr (Int.negSucc k) = "-" ++ Nat.repr (k + 1) from rfl,
        String.data_append] at hdata
      obtain ⟨d, t, hd, ht⟩ := natRepr_data_head m
      rw [ht] at hdata
      have hdash : Nat.digitChar d = '-' := by
        have hmark : ("-" : String).data = ['-'] := rfl
        rw [hmark] at hdata
        exact (List.cons_eq_cons.mp hdata).1
      exact digitChar_ne_dash d hd hdash
  | negSucc m =>
    cases b with
    | ofNat k =>
      exfalso
      have hdata := congrArg String.data h
      rw [show Int.repr (Int.negSucc m) = "-" ++ Nat.repr (m + 1) from rfl,
        show Int.repr (Int.ofNat k) = Nat.repr k from rfl,
        String.data_append] at hdata
      obtain ⟨d, t, hd, ht⟩ := natRepr_data_head k
      rw [ht] at hdata
      have hdash : Nat.digitChar d = '-' := by
        have hmark : ("-" : String).data = ['-'] := rfl
        rw [hmark] at hdata
        exact ((List.cons_eq_cons.mp hdata).1).symm
      exact digitChar_ne_dash d hd hdash
    | negSucc k =>
      have hdata := congrArg String.data h
      rw [show Int.repr (Int.negSucc m) = "-" ++ Nat.repr (m + 1) from rfl,
        show Int.repr (Int.negSucc k) = "-" ++ Nat.repr (k + 1) from rfl,
        String.data_append, String.data_append] at hdata
      have hmark : ("-" : String).data = ['-'] := rfl
      rw [hmark] at hdata
      have htail : (Nat.repr (m + 1)).data = (Nat.repr (k + 1)).data :=
        (List.cons_eq_cons.mp hdata).2
      have hstr : Nat.repr (m + 1) = Nat.repr (k + 1) := String.ext htail
      have hmk := natRepr_inj (m + 1) (k + 1) hstr
      have hmk2 : m = k := by omega
      exact congrArg Int.negSucc hmk2

theorem int_toString_inj (a b : Int) (h : toString a = toString b) : a = b :=
  intRepr_inj a b h

theorem findFree_mem_spec (existing : List String) :
    ∀ (fuel : Nat) (n : Int),
      toString (Optum.findFree existing fuel n) ∈ existing →
      Optum.findFree existing fuel n = n + (fuel : Int) ∧
        ∀ i : Nat, i < fuel → toString (n + (i : Int)) ∈ existing := by
  intro fuel
  induction fuel with
  | zero =>
    intro n h
    refine ⟨by simp [Optum.findFree], ?_⟩
    intro i hi
    omega
  | succ f ih =>
    intro n h
    by_cases hmem : toString n ∈ existing
    · have hunf : Optum.findFree existing (f + 1) n = Optum.findFree existing f (n + 1) := by
        simp [Optum.findFree, hmem]
      rw [hunf] at h
      obtain ⟨he, hi⟩ := ih (n + 1) h
      constructor
      · rw [hunf, he]
        push_cast
        ring
      · intro i hilt
        cases i with
        | zero => simpa using hmem
        | succ j =>
          have hj := hi j (by omega)
          have hcast : n + 1 + (j : Int) = n + ((j + 1 : Nat) : Int) := by
            push_cast
            ring
          rwa [hcast] at hj
    · have hunf : Optum.findFree existing (f + 1) n = n := by
        simp [Optum.findFree, hmem]
      rw [hunf] at h
      exact absurd h hmem

theorem nextSeq_not_mem (existing : List String) (n : Int) :
    toString (Optum.nextSeq existing n) ∉ existing := by
  intro hmem
  obtain ⟨heq, hall⟩ := findFree_mem_spec existing existing.length n hmem
  have hall2 : ∀ i : Nat, i ≤ existing.length → toString (n + (i : Int)) ∈ existing := by
    intro i hi
    rcases Nat.lt_or_ge i existing.length with hlt | hge
    · exact hall i hlt
    · have hieq : i = existing.length := by omega
      subst hieq
      rw [Optum.nextSeq, heq] at hmem
      exact hmem
  classical
  have hsub : (Finset.range (existing.length + 1)).image
      (fun i : Nat => toString (n + (i : Int))) ⊆ existing.toFinset := by
    intro s hs
    simp only [Finset.mem_image, Finset.mem_range] at hs
    obtain ⟨i, hi, rfl⟩ := hs
    exact List.mem_toFinset.mpr (hall2 i (by omega))
  have hinj : Set.InjOn (fun i : Nat => toString (n + (i : Int)))
      (Finset.range (existing.length + 1)) := by
    intro i _ j _ hij
    have := int_toString_inj _ _ hij
    omega
  have hcard := Finset.card_image_of_injOn hinj
  have hle := Finset.card_le_card hsub
  have hfl := List.toFinset_card_le existing
  rw [Finset.card_range] at hcard
  omega

/-!
Error-shape lemmas: every failure inside rule normalization or
sequence handling is a conversion error, never a validation error, so
a `validationError` can only come from `validate_category`.
-/

theorem pyIntOfString_error_shape (s : String) (e : PyErr)
    (h : pyIntOfString s = .error e) : ∃ msg, e = .convError msg := by
  unfold pyIntOfString at h
  split at h <;> split at h <;> simp at h <;> exact ⟨_, h.symm⟩

theorem pyInt_error_shape (v : PyVal) (e : PyErr)
    (h : pyInt v = .error e) : ∃ msg, e = .convError msg := by
  cases v with
  | pbool b => simp [pyInt] at h
  | pnum q => simp [pyInt] at h
  | pstr s => exact pyIntOfString_error_shape s e h
  | pnan =>
    simp only [pyInt, Except.error.injEq] at h
    exact ⟨_, h.symm⟩
  | pnone =>
    simp only [pyInt, Except.error.injEq] at h
    exact ⟨_, h.symm⟩

theorem pm_create_rule_error_shape (row : Row) (cat : String) (e : PyErr)
    (h : Policymaker.create_rule row cat = .error e) : ∃ msg, e = .convError msg := by
  unfold Policymaker.create_rule at h
  split at h
  · rename_i e2 he2
    cases h
    exact pyInt_error_shape _ _ he2
  · simp at h

theorem optum_create_rule_error_shape (row : Row) (cat : String) (e : PyErr)
    (h : Optum.create_rule row cat = .error e) : ∃ msg, e = .convError msg := by
  unfold Optum.create_rule at h
  split at h
  · rename_i e2 he2
    cases h
    exact pyInt_error_shape _ _ he2
  · simp at h

theorem pyIntOfNumeric_error_shape (v : PyVal) (e : PyErr)
    (h : Optum.pyIntOfNumeric v = .error e) : ∃ msg, e = .convError msg := by
  cases v with
  | pbool b => simp [Optum.pyIntOfNumeric] at h
  | pnum q => simp [Optum.pyIntOfNumeric] at h
  | pstr s =>
    simp only [Optum.pyIntOfNumeric, Except.error.injEq] at h
    exact ⟨_, h.symm⟩
  | pnan =>
    simp only [Optum.pyIntOfNumeric, Except.error.injEq] at h
    exact ⟨_, h.symm⟩
  | pnone =>
    simp only [Optum.pyIntOfNumeric, Except.error.injEq] at h
    exact ⟨_, h.symm⟩

theorem seqAlloc_error_shape (raw : PyVal) (ex : List String) (e : PyErr)
    (h : Optum.seqAlloc raw ex = .error e) : ∃ msg, e = .convError msg := by
  unfold Optum.seqAlloc at h
  split at h
  · split at h
    · rename_i e2 he2
      cases h
      exact pyIntOfNumeric_error_shape _ _ he2
    · simp at h
  · simp at h

theorem mapExcept_error_shape {α β : Type} (f : α → Except PyErr β)
    (hf : ∀ a e, f a = .error e → ∃ msg, e = .convError msg) :
    ∀ (l : List α) (e : PyErr), mapExcept f l = .error e → ∃ msg, e = .convError msg := by
  intro l
  induction l with
  | nil => intro e h; simp [mapExcept] at h
  | cons a as ih =>
    intro e h
    unfold mapExcept at h
    split at h
    · rename_i e2 he2
      cases h
      exact hf a _ he2
    · split at h
      · rename_i e2 he2
        cases h
        exact ih _ he2
      · simp at h

theorem validate_category_invalid (cat : String)
    (hno : ¬(pyLower cat = "application" ∨ pyLower cat = "infrastructure"
      ∨ pyLower cat = "environment")) :
    validate_category cat = .error (.validationError
      ("Category must be one of: Application, Infrastructure, Environment. Got: " ++ cat)) := by
  push_neg at hno
  obtain ⟨h1, h2, h3⟩ := hno
  unfold validate_category
  rw [if_neg h1, if_neg h2, if_neg h3]

theorem validate_category_valid (cat : String)
    (hyes : pyLower cat = "application" ∨ pyLower cat = "infrastructure"
      ∨ pyLower cat = "environment") :
    ∃ c, validate_category cat = .ok c := by
  unfold validate_category
  rcases hyes with h | h | h
  · rw [if_pos h]
    exact ⟨_, rfl⟩
  · by_cases h1 : pyLower cat = "application"
    · rw [if_pos h1]
      exact ⟨_, rfl⟩
    · rw [if_neg h1, if_pos h]
      exact ⟨_, rfl⟩
  · by_cases h1 : pyLower cat = "application"
    · rw [if_pos h1]
      exact ⟨_, rfl⟩
    · by_cases h2 : pyLower cat = "infrastructure"
      · rw [if_neg h1, if_pos h2]
        exact ⟨_, rfl⟩
      · rw [if_neg h1, if_neg h2, if_pos h]
        exact ⟨_, rfl⟩

theorem optum_seqAlloc_numeric (raw : PyVal) (ex : List String) (s : String) (ex2 : List String)
    (hnum : Optum.seqIsNumeric raw = true)
    (h : Optum.seqAlloc raw ex = .ok (s, ex2)) :
    s ∉ ex ∧ ex2 = ex ++ [s] := by
  unfold Optum.seqAlloc at h
  rw [if_pos hnum] at h
  split at h
  · simp at h
  · rename_i n hn
    rw [Except.ok.injEq, Prod.mk.injEq] at h
    obtain ⟨hs, hex⟩ := h
    subst hs
    subst hex
    exact ⟨nextSeq_not_mem ex n, rfl⟩

theorem optum_create_policy_seq (hdr : Row) (rules : List Row) (ex : List String)
    (p : Optum.Policy) (ex2 : List String)
    (hnum : Optum.seqIsNumeric (rowGet hdr "sequence_number" (.pnum 0)) = true)
    (hok : Optum.create_policy hdr rules ex = .ok (p, ex2)) :
    p.sequence_number ∉ ex ∧ ex2 = ex ++ [p.sequence_number] := by
  unfold Optum.create_policy at hok
  split at hok
  · simp at hok
  · split at hok
    · simp at hok
    · rename_i seq_str existing2 hseq
      split at hok
      · simp at hok
      · rw [Except.ok.injEq, Prod.mk.injEq] at hok
        obtain ⟨hp, hex⟩ := hok
        subst hex
        have hps : p.sequence_number = seq_str := by rw [← hp]
        rw [hps]
        exact optum_seqAlloc_numeric _ _ _ _ hnum hseq

theorem optum_batch_invariant (sheets : List (Row × List Row)) :
    ∀ (ex : List String) (ps : List Optum.Policy) (ex2 : List String),
      Optum.batchPolicies sheets ex = .ok (ps, ex2) →
      (∀ sh ∈ sheets, Optum.seqIsNumeric (rowGet sh.1 "sequence_number" (.pnum 0)) = true) →
      (ps.map (fun p => p.sequence_number)).Nodup
        ∧ (∀ s ∈ ps.map (fun p => p.sequence_number), s ∈ ex2 ∧ s ∉ ex)
        ∧ ∀ s ∈ ex, s ∈ ex2 := by
  induction sheets with
  | nil =>
    intro ex ps ex2 h _
    unfold Optum.batchPolicies at h
    rw [Except.ok.injEq, Prod.mk.injEq] at h
    obtain ⟨hps, hex⟩ := h
    subst hps
    subst hex
    exact ⟨List.nodup_nil, by simp, fun s hs => hs⟩
  | cons sh rest ih =>
    intro ex ps ex2 h hnum
    obtain ⟨hdr, rules⟩ := sh
    unfold Optum.batchPolicies at h
    split at h
    · simp at h
    · rename_i p existing2 hcp
      split at h
      · simp at h
      · rename_i ps2 existing3 hbatch
        cases h
        have hnum1 : Optum.seqIsNumeric (rowGet hdr "sequence_number" (.pnum 0)) = true :=
          hnum (hdr, rules) (List.mem_cons_self _ _)
        obtain ⟨hnotmem, hex2eq⟩ := optum_create_policy_seq hdr rules ex p existing2 hnum1 hcp
        obtain ⟨hnd, hmem, hsub⟩ := ih existing2 ps2 _ hbatch
          (fun s hs => hnum s (List.mem_cons_of_mem _ hs))
        have hpmem : p.sequence_number ∈ existing2 := by
          rw [hex2eq]
          simp
        refine ⟨?_, ?_, ?_⟩
        · rw [List.map_cons, List.nodup_cons]
          refine ⟨?_, hnd⟩
          intro hin
          exact (hmem _ hin).2 hpmem
        · intro s hs
          rw [List.map_cons, List.mem_cons] at hs
          rcases hs with hs | hs
          · subst hs
            exact ⟨hsub _ hpmem, hnotmem⟩
          · refine ⟨(hmem _ hs).1, ?_⟩
            intro hsex
            exact (hmem _ hs).2 (by rw [hex2eq]; exact List.mem_append_left _ hsex)
        · intro s hs
          exact hsub _ (by rw [hex2eq]; exact List.mem_append_left _ hs)

/-!
Claim theorems.
-/

/-- C1 counterexample: for the name `HTTPS` (no `SVCG_` prefix, no
`_path` suffix) the `policymaker.py` resolver returns the bare name
unresolved, while the `optum_policy_maker.py` resolver returns the
base-path form, so the claim "never returns the bare name n unresolved,
and this is the same in both policy-maker variants" is false on the code. -/
theorem C1_counterexample :
    pyStartsWith "HTTPS" "SVCG_" = false
    ∧ pyEndsWith "HTTPS" "_path" = false
    ∧ Policymaker.construct_variable_reference "service" "HTTPS" none = "HTTPS"
    ∧ Optum.construct_variable_reference "service" "HTTPS" none
        = "$\x7bvar.services_base_path\x7d/HTTPS"
    ∧ Policymaker.construct_variable_reference "service" "HTTPS" none
        ≠ Optum.construct_variable_reference "service" "HTTPS" none := by
  refine ⟨rfl, rfl, rfl, rfl, ?_⟩
  decide

/-- C1 amended: for every service name `n` that does not start with
`SVCG_` and does not end with `_path`, the optum variant resolves to the
default service path form, composed from the base-path variable and `n`
and determined by `n` alone, while the policymaker variant returns the
bare name `n` unresolved; the two variants therefore differ on every
such name. -/
theorem C1_amended_service_reference (n : String)
    (h1 : pyStartsWith n "SVCG_" = false) (h2 : pyEndsWith n "_path" = false) :
    Optum.construct_variable_reference "service" n none
      = "$\x7bvar.services_base_path\x7d/" ++ n
    ∧ Policymaker.construct_variable_reference "service" n none = n := by
  constructor
  · simp [Optum.construct_variable_reference, h1, h2]
  · simp [Policymaker.construct_variable_reference, h1, h2]

/-- C1 witness: the amended theorem applied at the concrete name `HTTPS`. -/
theorem C1_witness :
    pyStartsWith "HTTPS" "SVCG_" = false
    ∧ pyEndsWith "HTTPS" "_path" = false
    ∧ Optum.construct_variable_reference "service" "HTTPS" none
        = "$\x7bvar.services_base_path\x7d/HTTPS"
    ∧ Policymaker.construct_variable_reference "service" "HTTPS" none = "HTTPS" :=
  ⟨rfl, rfl, (C1_amended_service_reference "HTTPS" rfl rfl).1,
    (C1_amended_service_reference "HTTPS" rfl rfl).2⟩

/-- C2 counterexample: `process_groups` does not drop empty elements.
A value with a trailing comma produces a reference built from the empty
name in both variants, so the claim's "empty elements are dropped, and
the result list never contains a reference built from an empty name" is
false on the code. -/
theorem C2_counterexample :
    Policymaker.process_groups (.pstr "A,") "Infrastructure"
      = ["$\x7bvar.infra_groups_path.A_path\x7d", "$\x7bvar.infra_groups_path._path\x7d"]
    ∧ Optum.process_groups (.pstr "A,") "Application"
      = ["$\x7bvar.groups_base_path\x7d/A", "$\x7bvar.groups_base_path\x7d/"] := by
  constructor <;> rfl

/-- C2 amended: for every list-valued rule field, an absent value (NaN
or None), the empty string, the literal `any`, or any non-string value
normalizes to the empty list; otherwise the string is split on comma,
each element is trimmed of surrounding whitespace and passed through
the Reference Resolver with kind = group and the rule's category —
empty elements included, they are not dropped, so a trailing or doubled
comma yields a reference built from the empty name. -/
theorem C2_amended_process_groups :
    (∀ c : String,
      Policymaker.process_groups (.pstr "") c = []
      ∧ Policymaker.process_groups (.pstr "any") c = []
      ∧ Policymaker.process_groups .pnan c = []
      ∧ Policymaker.process_groups .pnone c = []
      ∧ (∀ b, Policymaker.process_groups (.pbool b) c = [])
      ∧ (∀ q, Policymaker.process_groups (.pnum q) c = [])
      ∧ Optum.process_groups (.pstr "") c = []
      ∧ Optum.process_groups (.pstr "any") c = []
      ∧ Optum.process_groups .pnan c = []
      ∧ Optum.process_groups .pnone c = []
      ∧ (∀ b, Optum.process_groups (.pbool b) c = [])
      ∧ (∀ q, Optum.process_groups (.pnum q) c = []))
    ∧ (∀ (s : String) (c : String), s ≠ "" → s ≠ "any" →
      Policymaker.process_groups (.pstr s) c
        = (pySplitComma s).map
          (fun group => Policymaker.construct_variable_reference "group" (pyStrip group) (some c))
      ∧ Optum.process_groups (.pstr s) c
        = (pySplitComma s).map
          (fun group => Optum.construct_variable_reference "group" (pyStrip group) (some c))) := by
  constructor
  · intro c
    refine ⟨rfl, rfl, rfl, rfl, fun b => rfl, fun q => rfl,
      rfl, rfl, rfl, rfl, fun b => rfl, fun q => rfl⟩
  · intro s c hs hany
    constructor
    · simp [Policymaker.process_groups, hs, hany]
    · simp [Optum.process_groups, hs, hany]

/-- C2 witness: the amended theorem applied at the concrete value
`"A, B"` with category `Environment`. -/
theorem C2_witness :
    Policymaker.process_groups (.pstr "A, B") "Environment"
      = (pySplitComma "A, B").map
        (fun group =>
          Policymaker.construct_variable_reference "group" (pyStrip group) (some "Environment"))
    ∧ Optum.process_groups (.pstr "A, B") "Environment"
      = (pySplitComma "A, B").map
        (fun group =>
          Optum.construct_variable_reference "group" (pyStrip group) (some "Environment")) :=
  C2_amended_process_groups.2 "A, B" "Environment" (by decide) (by decide)

/-- C5 counterexample: in the `policymaker.py` variant the Application
category also appends `_path` to the key (the key is `n_path`, not `n`
alone), so the claim "Application does not (the key is n alone), in
both policy-maker variants" is false on the code. -/
theorem C5_counterexample :
    Policymaker.construct_variable_reference "group" "G" (some "Application")
      = "$\x7bvar.app_groups_path.G_path\x7d"
    ∧ Policymaker.construct_variable_reference "group" "G" (some "Application")
      ≠ "$\x7bvar.app_groups_path.G\x7d" := by
  refine ⟨rfl, ?_⟩
  decide

/-- C5 amended: for every group name `n`, Infrastructure and
Environment key their namespaces with `n_path` in both variants; for
Application, the policymaker variant also keys `app_groups_path` with
`n_path`, while the optum variant returns the base-path form with the
bare name `n`. -/
theorem C5_amended_group_reference (n : String) :
    Policymaker.construct_variable_reference "group" n (some "Infrastructure")
      = "$\x7bvar.infra_groups_path." ++ n ++ "_path\x7d"
    ∧ Policymaker.construct_variable_reference "group" n (some "Environment")
      = "$\x7bvar.env_groups_path." ++ n ++ "_path\x7d"
    ∧ Policymaker.construct_variable_reference "group" n (some "Application")
      = "$\x7bvar.app_groups_path." ++ n ++ "_path\x7d"
    ∧ Optum.construct_variable_reference "group" n (some "Infrastructure")
      = "$\x7bvar.infra_groups_path." ++ n ++ "_path\x7d"
    ∧ Optum.construct_variable_reference "group" n (some "Environment")
      = "$\x7bvar.env_groups_path." ++ n ++ "_path\x7d"
    ∧ Optum.construct_variable_reference "group" n (some "Application")
      = "$\x7bvar.groups_base_path\x7d/" ++ n :=
  ⟨rfl, rfl, rfl, rfl, rfl, rfl⟩

/-- C6: boolean coercion returns a native boolean unchanged; a string
is true iff it equals `TRUE` case-insensitively; a number is true iff
it equals 1; everything else (NaN, None, 0, `false`, the empty string)
is false — and the same shared coercion is applied to every
boolean-typed field (disabled, logged, sources/destinations-excluded
in both variants' `create_rule`, locked in both variants'
`create_policy`). -/
theorem C6_convert_to_bool :
    (∀ b, convert_to_bool (.pbool b) = b)
    ∧ (∀ s, convert_to_bool (.pstr s) = true ↔ pyUpper s = "TRUE")
    ∧ (∀ q : Rat, convert_to_bool (.pnum q) = true ↔ q = 1)
    ∧ convert_to_bool .pnan = false
    ∧ convert_to_bool .pnone = false
    ∧ convert_to_bool (.pnum 0) = false
    ∧ convert_to_bool (.pstr "false") = false
    ∧ convert_to_bool (.pstr "") = false
    ∧ (∀ (row : Row) (cat : String) (r : Rule),
        Policymaker.create_rule row cat = .ok r →
          r.disabled = convert_to_bool (rowGet row "Rule Disabled" (.pbool false))
          ∧ r.logged = convert_to_bool (rowGet row "logged" (.pbool false))
          ∧ r.sources_excluded
              = convert_to_bool (rowGet row "sources_excluded (Negate)" (.pbool false))
          ∧ r.destinations_excluded
              = convert_to_bool (rowGet row "destinations_excluded (Negate)" (.pbool false)))
    ∧ (∀ (row : Row) (cat : String) (r : Rule),
        Optum.create_rule row cat = .ok r →
          r.disabled = convert_to_bool (rowGet row "Rule Disabled" (.pbool false))
          ∧ r.logged = convert_to_bool (rowGet row "logged" (.pbool false))
          ∧ r.sources_excluded
              = convert_to_bool (rowGet row "sources_excluded (Negate)" (.pbool false))
          ∧ r.destinations_excluded
              = convert_to_bool (rowGet row "destinations_excluded (Negate)" (.pbool false)))
    ∧ (∀ (hdr : Row) (rules : List Row) (p : Policymaker.Policy),
        Policymaker.create_policy hdr rules = .ok p →
          p.locked = convert_to_bool (rowGet hdr "locked" (.pbool false))) := by
  refine ⟨fun b => rfl, ?_, ?_, rfl, rfl, by decide, by decide, by decide, ?_, ?_, ?_⟩
  · intro s
    simp [convert_to_bool]
  · intro q
    simp [convert_to_bool]
  · intro row cat r h
    unfold Policymaker.create_rule at h
    split at h
    · simp at h
    · cases h
      exact ⟨rfl, rfl, rfl, rfl⟩
  · intro row cat r h
    unfold Optum.create_rule at h
    split at h
    · simp at h
    · cases h
      exact ⟨rfl, rfl, rfl, rfl⟩
  · intro hdr rules p h
    unfold Policymaker.create_policy at h
    split at h
    · simp at h
    · split at h
      · simp at h
      · cases h
        rfl

/-- C6 witness: the boolean-field conjunct of the coercion theorem
applied at a concrete header with `locked = True`. -/
theorem C6_witness :
    Policymaker.create_policy [("locked", PyVal.pbool true)] []
      = .ok { nsx_id := "", display_name := .pstr "default-policy",
              category := "Infrastructure", comments := .pstr "",
              description := .pstr "", domain := .pstr "default", locked := true,
              sequence_number := .pstr "", rule := [] }
    ∧ (true : Bool)
        = convert_to_bool (rowGet [("locked", PyVal.pbool true)] "locked" (.pbool false)) := by
  refine ⟨rfl, ?_⟩
  exact C6_convert_to_bool.2.2.2.2.2.2.2.2.2.2 [("locked", PyVal.pbool true)] []
    { nsx_id := "", display_name := .pstr "default-policy", category := "Infrastructure",
      comments := .pstr "", description := .pstr "", domain := .pstr "default",
      locked := true, sequence_number := .pstr "", rule := [] } rfl

/-- C7: in the single-policy variant, a header sequence number that
compares equal to 0 (including the default taken when the field is
absent) is serialized as the empty string, and a sequence number that
does not compare equal to 0 is serialized as-is, unchanged. -/
theorem C7_sequence_zero_empty (hdr : Row) (rules : List Row) (p : Policymaker.Policy)
    (h : Policymaker.create_policy hdr rules = .ok p) :
    (pyEqZero (rowGet hdr "sequence_number" (.pnum 0)) = true → p.sequence_number = .pstr "")
    ∧ (pyEqZero (rowGet hdr "sequence_number" (.pnum 0)) = false →
        p.sequence_number = rowGet hdr "sequence_number" (.pnum 0))
    ∧ (hdr.find? (fun kv => kv.1 = "sequence_number") = none →
        p.sequence_number = .pstr "") := by
  unfold Policymaker.create_policy at h
  split at h
  · simp at h
  · split at h
    · simp at h
    · cases h
      refine ⟨?_, ?_, ?_⟩
      · intro hz
        show (if pyEqZero (rowGet hdr "sequence_number" (.pnum 0)) = true
          then PyVal.pstr "" else rowGet hdr "sequence_number" (.pnum 0)) = _
        simp [hz]
      · intro hz
        show (if pyEqZero (rowGet hdr "sequence_number" (.pnum 0)) = true
          then PyVal.pstr "" else rowGet hdr "sequence_number" (.pnum 0)) = _
        simp [hz]
      · intro hfind
        show (if pyEqZero (rowGet hdr "sequence_number" (.pnum 0)) = true
          then PyVal.pstr "" else rowGet hdr "sequence_number" (.pnum 0)) = _
        simp [rowGet, hfind, pyEqZero]

/-- C7 witness: the theorem applied at a header with no
`sequence_number` field, whose policy serializes the sequence number
as the empty string. -/
theorem C7_witness :
    Policymaker.create_policy [] []
      = .ok { nsx_id := "", display_name := .pstr "default-policy",
              category := "Infrastructure", comments := .pstr "", description := .pstr "",
              domain := .pstr "default", locked := false, sequence_number := .pstr "",
              rule := [] }
    ∧ pyEqZero (rowGet ([] : Row) "sequence_number" (.pnum 0)) = true
    ∧ PyVal.pstr "" = PyVal.pstr "" := by
  refine ⟨rfl, by decide, ?_⟩
  exact (C7_sequence_zero_empty [] []
    { nsx_id := "", display_name := .pstr "default-policy", category := "Infrastructure",
      comments := .pstr "", description := .pstr "", domain := .pstr "default",
      locked := false, sequence_number := .pstr "", rule := [] } rfl).1 (by decide)

/-- C9 counterexample: rule normalization does fail on a non-numeric
`sequence_number` value (Python's `int("abc")` raises `ValueError`),
in both variants, while the same row without the field succeeds; the
claim "rule normalization never fails ... (including a non-numeric
sequence_number value) degrades to its documented default" is false on
the code. -/
theorem C9_counterexample :
    Policymaker.create_rule [("sequence_number", PyVal.pstr "abc")] "Infrastructure"
      = .error (.convError "invalid literal for int(): abc")
    ∧ Optum.create_rule [("sequence_number", PyVal.pstr "abc")] "Infrastructure"
      = .error (.convError "invalid literal for int(): abc")
    ∧ (Policymaker.create_rule [] "Infrastructure").isOk = true := by
  exact ⟨rfl, rfl, rfl⟩

/-- C9 amended: rule normalization succeeds for every raw row whose
`sequence_number` value (or its absent-field default 0) converts with
`int`; all other absent or malformed optional fields degrade to their
defaults.  Only the `int(sequence_number)` conversion can fail. -/
theorem C9_amended_rule_normalization (row : Row) (cat : String)
    (h : (pyInt (rowGet row "sequence_number" (.pnum 0))).isOk = true) :
    (Policymaker.create_rule row cat).isOk = true
    ∧ (Optum.create_rule row cat).isOk = true := by
  constructor
  · unfold Policymaker.create_rule
    split
    · rename_i e he
      rw [he] at h
      simp [Except.isOk, Except.toBool] at h
    · rfl
  · unfold Optum.create_rule
    split
    · rename_i e he
      rw [he] at h
      simp [Except.isOk, Except.toBool] at h
    · rfl

/-- C9 witness: the amended theorem applied at a row with the numeric
sequence number 7. -/
theorem C9_witness :
    (pyInt (rowGet [("sequence_number", PyVal.pnum 7)] "sequence_number" (.pnum 0))).isOk = true
    ∧ (Policymaker.create_rule [("sequence_number", PyVal.pnum 7)] "Infrastructure").isOk = true
    ∧ (Optum.create_rule [("sequence_number", PyVal.pnum 7)] "Infrastructure").isOk = true :=
  ⟨by decide, (C9_amended_rule_normalization _ "Infrastructure" (by decide)).1,
    (C9_amended_rule_normalization _ "Infrastructure" (by decide)).2⟩

/-- Entries of a Python dict update are either old entries or the
inserted pair. -/
theorem dictInsert_mem (d : List (PyVal × List String)) (k : PyVal) (v : List String)
    (p : PyVal × List String) (hp : p ∈ Ipset.dictInsert d k v) : p ∈ d ∨ p = (k, v) := by
  unfold Ipset.dictInsert at hp
  split at hp
  · rw [List.mem_map] at hp
    obtain ⟨q, hq, hpe⟩ := hp
    by_cases hqk : q.1 = k
    · right
      rw [if_pos hqk] at hpe
      exact hpe.symm
    · left
      rw [if_neg hqk] at hpe
      exact hpe ▸ hq
  · rw [List.mem_append] at hp
    rcases hp with hp | hp
    · exact Or.inl hp
    · right
      simpa using hp

/-- Every entry of the accumulated groups dict has a nonempty address
list, because only nonempty cleaned lists are ever inserted. -/
theorem ipsetGroupsData_invariant :
    ∀ (rows : List Ipset.IpsetRow) (acc d : List (PyVal × List String)),
      (∀ p ∈ acc, p.2 ≠ []) → Ipset.ipsetGroupsData rows acc = .ok d →
      ∀ p ∈ d, p.2 ≠ [] := by
  intro rows
  induction rows with
  | nil =>
    intro acc d hacc h
    unfold Ipset.ipsetGroupsData at h
    cases h
    exact hacc
  | cons row rest ih =>
    intro acc d hacc h
    unfold Ipset.ipsetGroupsData at h
    split at h
    · simp at h
    · rename_i acc2 hstep
      refine ih acc2 d ?_ h
      unfold Ipset.processIpsetRow at hstep
      split at hstep
      · cases hstep
        exact hacc
      · split at hstep
        · simp at hstep
        · rename_i ips hclean
          split at hstep
          · cases hstep
            exact hacc
          · rename_i hne
            cases hstep
            intro p hp
            rcases dictInsert_mem _ _ _ p hp with hin | heq
            · exact hacc p hin
            · rw [heq]
              exact hne

/-- C10: in the HCL IP-set emitter, a row whose `group_name` is
missing (NA), or whose `csv` field cleans to the empty list,
contributes no entry to the groups mapping; consequently every group
in a successfully built mapping has a nonempty address list. -/
theorem C10_ipset_nonempty :
    (∀ (rows : List Ipset.IpsetRow) (d : List (PyVal × List String)),
      Ipset.ipsetGroupsData rows [] = .ok d → ∀ p ∈ d, p.2 ≠ [])
    ∧ (∀ (acc : List (PyVal × List String)) (row : Ipset.IpsetRow),
        pdIsna row.group_name = true → Ipset.processIpsetRow acc row = .ok acc)
    ∧ (∀ (acc : List (PyVal × List String)) (row : Ipset.IpsetRow),
        Ipset.clean_ip_addresses row.csv = .ok [] →
          Ipset.processIpsetRow acc row = .ok acc) := by
  refine ⟨?_, ?_, ?_⟩
  · intro rows d h
    exact ipsetGroupsData_invariant rows [] d (by simp) h
  · intro acc row hna
    unfold Ipset.processIpsetRow
    rw [if_pos hna]
  · intro acc row hclean
    unfold Ipset.processIpsetRow
    by_cases hna : pdIsna row.group_name = true
    · rw [if_pos hna]
    · rw [if_neg hna, hclean]
      rfl

/-- C10 witness: the theorem applied at a concrete sheet with one good
row, one NA-named row and one row whose csv cleans to empty. -/
theorem C10_witness :
    Ipset.ipsetGroupsData
      [⟨PyVal.pstr "A", PyVal.pstr "1.2.3.4"⟩, ⟨PyVal.pnan, PyVal.pstr "9.9.9.9"⟩,
        ⟨PyVal.pstr "B", PyVal.pstr " , "⟩] []
      = .ok [(PyVal.pstr "A", ["1.2.3.4"])]
    ∧ (PyVal.pstr "A", ["1.2.3.4"]).2 ≠ ([] : List String) := by
  refine ⟨rfl, ?_⟩
  exact C10_ipset_nonempty.1
    [⟨PyVal.pstr "A", PyVal.pstr "1.2.3.4"⟩, ⟨PyVal.pnan, PyVal.pstr "9.9.9.9"⟩,
      ⟨PyVal.pstr "B", PyVal.pstr " , "⟩]
    [(PyVal.pstr "A", ["1.2.3.4"])] rfl (PyVal.pstr "A", ["1.2.3.4"]) (by decide)

/-- A valid category means `create_policy` in the single-policy
variant never fails with a validation error; an invalid one always
does. -/
theorem pm_create_policy_validation_iff (hdr : Row) (rules : List Row) (cat : String)
    (hcat : rowGet hdr "category" (.pstr "Infrastructure") = .pstr cat) :
    (∃ msg, Policymaker.create_policy hdr rules = .error (.validationError msg)) ↔
      ¬(pyLower cat = "application" ∨ pyLower cat = "infrastructure"
        ∨ pyLower cat = "environment") := by
  constructor
  · rintro ⟨msg, herr⟩ hval
    obtain ⟨c, hc⟩ := validate_category_valid cat hval
    unfold Policymaker.create_policy at herr
    split at herr
    · rename_i e heq
      rw [hcat] at heq
      have heq2 : validate_category cat = .error e := heq
      rw [hc] at heq2
      exact absurd heq2 (by simp)
    · split at herr
      · rename_i e heq
        cases herr
        obtain ⟨m2, hm2⟩ := mapExcept_error_shape _
          (fun a e2 ha => pm_create_rule_error_shape a _ e2 ha) rules _ heq
        simp at hm2
      · simp at herr
  · intro hval
    have hfull : pyValidateCategory (rowGet hdr "category" (.pstr "Infrastructure"))
        = .error (.validationError
          ("Category must be one of: Application, Infrastructure, Environment. Got: " ++ cat)) := by
      rw [hcat]
      exact validate_category_invalid cat hval
    refine ⟨"Category must be one of: Application, Infrastructure, Environment. Got: " ++ cat, ?_⟩
    unfold Policymaker.create_policy
    rw [hfull]

/-- A valid category means `create_policy` in the batch variant never
fails with a validation error; an invalid one always does. -/
theorem optum_create_policy_validation_iff (hdr : Row) (rules : List Row) (ex : List String)
    (cat : String)
    (hcat : rowGet hdr "category" (.pstr "Infrastructure") = .pstr cat) :
    (∃ msg, Optum.create_policy hdr rules ex = .error (.validationError msg)) ↔
      ¬(pyLower cat = "application" ∨ pyLower cat = "infrastructure"
        ∨ pyLower cat = "environment") := by
  constructor
  · rintro ⟨msg, herr⟩ hval
    obtain ⟨c, hc⟩ := validate_category_valid cat hval
    unfold Optum.create_policy at herr
    split at herr
    · rename_i e heq
      rw [hcat] at heq
      have heq2 : validate_category cat = .error e := heq
      rw [hc] at heq2
      exact absurd heq2 (by simp)
    · split at herr
      · rename_i e heq
        cases herr
        obtain ⟨m2, hm2⟩ := seqAlloc_error_shape _ _ _ heq
        simp at hm2
      · split at herr
        · rename_i e heq
          cases herr
          obtain ⟨m2, hm2⟩ := mapExcept_error_shape _
            (fun a e2 ha => optum_create_rule_error_shape a _ e2 ha) rules _ heq
          simp at hm2
        · simp at herr
  · intro hval
    have hfull : pyValidateCategory (rowGet hdr "category" (.pstr "Infrastructure"))
        = .error (.validationError
          ("Category must be one of: Application, Infrastructure, Environment. Got: " ++ cat)) := by
      rw [hcat]
      exact validate_category_invalid cat hval
    refine ⟨"Category must be one of: Application, Infrastructure, Environment. Got: " ++ cat, ?_⟩
    unfold Optum.create_policy
    rw [hfull]

/-- With an invalid category the result of policy assembly does not
depend on the rule rows (or on the shared sequence set): the
validation error preempts all rule construction. -/
theorem create_policy_error_independent (hdr : Row) (cat : String)
    (hcat : rowGet hdr "category" (.pstr "Infrastructure") = .pstr cat)
    (hval : ¬(pyLower cat = "application" ∨ pyLower cat = "infrastructure"
      ∨ pyLower cat = "environment")) :
    ∀ (rules rules2 : List Row) (ex ex2 : List String),
      Policymaker.create_policy hdr rules = Policymaker.create_policy hdr rules2
      ∧ Optum.create_policy hdr rules ex = Optum.create_policy hdr rules2 ex2 := by
  intro rules rules2 ex ex2
  have hfull : pyValidateCategory (rowGet hdr "category" (.pstr "Infrastructure"))
      = .error (.validationError
        ("Category must be one of: Application, Infrastructure, Environment. Got: " ++ cat)) := by
    rw [hcat]
    exact validate_category_invalid cat hval
  constructor
  · unfold Policymaker.create_policy
    rw [hfull]
  · unfold Optum.create_policy
    rw [hfull]

/-- C3: policy assembly fails with a validation error if and only if
the header's category field, compared case-insensitively, is not one
of application / infrastructure / environment — in both variants; and
when the category is invalid the error is raised before any rule
record is constructed (the result does not depend on the rule rows). -/
theorem C3_category_validation (hdr : Row) (rules : List Row) (ex : List String) (cat : String)
    (hcat : rowGet hdr "category" (.pstr "Infrastructure") = .pstr cat) :
    ((∃ msg, Policymaker.create_policy hdr rules = .error (.validationError msg)) ↔
        ¬(pyLower cat = "application" ∨ pyLower cat = "infrastructure"
          ∨ pyLower cat = "environment"))
    ∧ ((∃ msg, Optum.create_policy hdr rules ex = .error (.validationError msg)) ↔
        ¬(pyLower cat = "application" ∨ pyLower cat = "infrastructure"
          ∨ pyLower cat = "environment"))
    ∧ (¬(pyLower cat = "application" ∨ pyLower cat = "infrastructure"
          ∨ pyLower cat = "environment") →
        ∀ (rules2 : List Row) (ex2 : List String),
          Policymaker.create_policy hdr rules = Policymaker.create_policy hdr rules2
          ∧ Optum.create_policy hdr rules ex = Optum.create_policy hdr rules2 ex2) := by
  refine ⟨pm_create_policy_validation_iff hdr rules cat hcat,
    optum_create_policy_validation_iff hdr rules ex cat hcat, ?_⟩
  intro hval rules2 ex2
  exact create_policy_error_independent hdr cat hcat hval rules rules2 ex ex2

/-- C3 witness: the theorem applied at the concrete invalid category
`Foo` — the assembly fails with the validation error, and the result is
the same whatever rule rows follow. -/
theorem C3_witness :
    rowGet [("category", PyVal.pstr "Foo")] "category" (.pstr "Infrastructure") = .pstr "Foo"
    ∧ Policymaker.create_policy [("category", PyVal.pstr "Foo")] []
        = .error (.validationError
          "Category must be one of: Application, Infrastructure, Environment. Got: Foo")
    ∧ Policymaker.create_policy [("category", PyVal.pstr "Foo")] []
        = Policymaker.create_policy [("category", PyVal.pstr "Foo")]
            [[("sequence_number", PyVal.pstr "boom")]] := by
  refine ⟨rfl, rfl, ?_⟩
  exact ((C3_category_validation [("category", PyVal.pstr "Foo")] [] [] "Foo" rfl).2.2
    (by decide) [[("sequence_number", PyVal.pstr "boom")]] []).1

/-- C4: in multi-policy batch mode with one shared sequence-number
set, every policy whose raw sequence value is numeric gets a sequence
number not yet in the set (incrementing until free, then recording
it), so no two policies of one run carry the same serialized sequence
number; in particular two policies both specifying 5 receive 5 and 6. -/
theorem C4_sequence_dedup :
    (∀ (sheets : List (Row × List Row)) (ps : List Optum.Policy) (ex2 : List String),
      Optum.batchPolicies sheets [] = .ok (ps, ex2) →
      (∀ sh ∈ sheets, Optum.seqIsNumeric (rowGet sh.1 "sequence_number" (.pnum 0)) = true) →
      (ps.map (fun p => p.sequence_number)).Nodup)
    ∧ (Optum.batchPolicies
        [([("sequence_number", PyVal.pnum 5)], []), ([("sequence_number", PyVal.pnum 5)], [])]
        []).toOption.map (fun r => r.1.map (fun p => p.sequence_number))
      = some ["5", "6"] := by
  constructor
  · intro sheets ps ex2 h hnum
    exact (optum_batch_invariant sheets [] ps ex2 h hnum).1
  · rfl

/-- C4 witness: the no-collision theorem applied at the concrete batch
of two policies both specifying sequence number 5. -/
theorem C4_witness :
    Optum.batchPolicies
        [([("sequence_number", PyVal.pnum 5)], []), ([("sequence_number", PyVal.pnum 5)], [])] []
      = .ok ([{ nsx_id := "", display_name := .pstr "default-policy",
                category := "Infrastructure", comments := "", description := "",
                domain := .pstr "default", locked := false, sequence_number := "5",
                rule := [] },
              { nsx_id := "", display_name := .pstr "default-policy",
                category := "Infrastructure", comments := "", description := "",
                domain := .pstr "default", locked := false, sequence_number := "6",
                rule := [] }], ["5", "6"])
    ∧ (List.map (fun p => p.sequence_number)
        [({ nsx_id := "", display_name := .pstr "default-policy",
            category := "Infrastructure", comments := "", description := "",
            domain := .pstr "default", locked := false, sequence_number := "5",
            rule := [] } : Optum.Policy),
          { nsx_id := "", display_name := .pstr "default-policy",
            category := "Infrastructure", comments := "", description := "",
            domain := .pstr "default", locked := false, sequence_number := "6",
            rule := [] }]).Nodup := by
  refine ⟨rfl, ?_⟩
  exact C4_sequence_dedup.1
    [([("sequence_number", PyVal.pnum 5)], []), ([("sequence_number", PyVal.pnum 5)], [])]
    _ ["5", "6"] rfl (by decide)

/-- C8: every group of the mapping contributes a locals entry whose
key is the sanitized group name (characters outside letters, digits,
underscore, hyphen replaced by underscore) and whose addresses value
is the `json.dumps` array literal of the cleaned address list; the
scenario row with group name `DB Servers` and csv
`"10.0.0.1, 10.0.0.2,"` yields key `DB_Servers` and addresses
`["10.0.0.1", "10.0.0.2"]`, the trailing empty element dropped. -/
theorem C8_locals_entry (groups : List (String × List String)) (g : String × List String)
    (hmem : g ∈ groups) :
    Ipset.entryLines g <:+: Ipset.localsLines groups
    ∧ Ipset.entryLines g
        = ["    " ++ Ipset.cleanName g.1 ++ " = \x7b",
           "      name = \"" ++ g.1 ++ "\"",
           "      addresses = " ++ Ipset.jsonDumpsList g.2,
           "    \x7d"]
    ∧ Ipset.cleanName "DB Servers" = "DB_Servers"
    ∧ Ipset.clean_ip_addresses (.pstr "10.0.0.1, 10.0.0.2,") = .ok ["10.0.0.1", "10.0.0.2"]
    ∧ Ipset.generate_hcl_locals [("DB Servers", ["10.0.0.1", "10.0.0.2"])]
        = "locals \x7b\n  ip_sets = \x7b\n    DB_Servers = \x7b\n      name = \"DB Servers\"\n      addresses = [\"10.0.0.1\", \"10.0.0.2\"]\n    \x7d\n  \x7d\n\x7d\n" := by
  refine ⟨?_, rfl, rfl, rfl, rfl⟩
  obtain ⟨s, t, rfl⟩ := List.append_of_mem hmem
  refine ⟨["locals \x7b", "  ip_sets = \x7b"] ++ s.flatMap Ipset.entryLines,
    t.flatMap Ipset.entryLines ++ ["  \x7d", "\x7d", ""], ?_⟩
  simp [Ipset.localsLines, List.flatMap_append, List.flatMap_cons]

/-- C8 witness: the entry-containment theorem applied at the concrete
singleton mapping for `DB Servers`. -/
theorem C8_witness :
    ("DB Servers", ["10.0.0.1", "10.0.0.2"])
        ∈ [("DB Servers", ["10.0.0.1", "10.0.0.2"])]
    ∧ Ipset.entryLines ("DB Servers", ["10.0.0.1", "10.0.0.2"])
        <:+: Ipset.localsLines [("DB Servers", ["10.0.0.1", "10.0.0.2"])] := by
  refine ⟨by decide, ?_⟩
  exact (C8_locals_entry [("DB Servers", ["10.0.0.1", "10.0.0.2"])]
    ("DB Servers", ["10.0.0.1", "10.0.0.2"]) (by decide)).1
